import Mathlib

/-!
Verification of the PromMonitoring HTTP metrics middleware
(`middleware.go`, `main.go`).

The Go code is shallowly embedded as follows.

* `metricsResponseWriter` (the Response Interceptor) becomes a two-field
  record; its `WriteHeader`/`Write` methods become pure state transformers
  that also emit the call forwarded to the underlying sink (`SinkEvent`)
  and, for `Write`, return the pair the underlying sink returned.
* The Prometheus registry instruments are not modelled as mutable state;
  instead every instrument update performed by the middleware is emitted
  as a `MetricEvent`.  Counter values / histogram observation counts are
  recovered by counting events in the emitted trace, which is exactly the
  effect the Go code has on the registry (each `Inc`/`Observe` call is one
  event on one label tuple).
* A downstream handler is abstracted by what the middleware can see of it:
  the sequence of calls it makes on the `http.ResponseWriter` it is given
  (`WriterOp`, where each write carries the byte count the underlying sink
  reports as accepted and the error it returns), together with whether it
  returns normally or panics partway (`Outcome`).
* `Middleware` and `RecoverMiddleware` (composed as in the repository's
  usage example, `RecoverMiddleware(Middleware(next))`) become
  `processRequest`, producing the registry-event trace and the trace of
  calls reaching the real response sink.
* The `sync.Once`-guarded `InitMetrics`/`GetMetrics` pair in `main.go`
  becomes an explicit state machine over `InitState`.
-/

namespace PromMonitoring

/-- HTTP request data consumed by the middleware: `r.Method`, `r.URL.Path`
and `r.ContentLength` (which in Go is `-1` when the length is unknown). -/
structure Request where
  method : String
  path : String
  contentLength : Int
deriving Repr, DecidableEq

/-- A call forwarded to the underlying `http.ResponseWriter` (the real
response sink): a `WriteHeader(code)` call or a `Write` call of a slice of
`requested` bytes of which the sink reports `accepted` as written. -/
inductive SinkEvent
  | header (code : Int)
  | writeBytes (requested accepted : Nat)
deriving Repr, DecidableEq

/-- State of `metricsResponseWriter`: the captured status code and the
cumulative response size. -/
structure MetricsResponseWriter where
  statusCode : Int
  responseSize : Int
deriving Repr, DecidableEq

/-- `newMetricsResponseWriter`: status defaults to `http.StatusOK` (200),
size to 0. -/
def newMetricsResponseWriter : MetricsResponseWriter :=
  { statusCode := 200, responseSize := 0 }

/-- `(w *metricsResponseWriter) WriteHeader(statusCode int)`: stores the
code (overwriting any previous one) and forwards the call to the
underlying writer. -/
def MetricsResponseWriter.writeHeader (w : MetricsResponseWriter) (code : Int) :
    MetricsResponseWriter × SinkEvent :=
  ({ w with statusCode := code }, SinkEvent.header code)

/-- `(w *metricsResponseWriter) Write(b []byte) (int, error)`: forwards the
slice to the underlying writer, which reports `accepted` bytes written and
an error `err`; adds `accepted` to `responseSize` and returns the
underlying writer's result unmodified.  The result is
(new state, forwarded call, value returned to the caller). -/
def MetricsResponseWriter.write (w : MetricsResponseWriter)
    (requested accepted : Nat) (err : Option String) :
    MetricsResponseWriter × SinkEvent × (Nat × Option String) :=
  ({ w with responseSize := w.responseSize + (accepted : Int) },
   SinkEvent.writeBytes requested accepted, (accepted, err))

/-- One call a downstream handler makes on the writer it was given:
`setHeader code` is a `WriteHeader(code)` call; `doWrite requested accepted
err` is a `Write` of `requested` bytes for which the underlying sink
reports `accepted` bytes written and returns `err`. -/
inductive WriterOp
  | setHeader (code : Int)
  | doWrite (requested accepted : Nat) (err : Option String)
deriving Repr, DecidableEq

/-- Run a sequence of handler calls against a `metricsResponseWriter`,
returning the final writer state and the trace of calls forwarded to the
underlying sink. -/
def runOps : MetricsResponseWriter → List WriterOp → MetricsResponseWriter × List SinkEvent
  | w, [] => (w, [])
  | w, WriterOp.setHeader c :: rest =>
      let s := w.writeHeader c
      let r := runOps s.1 rest
      (r.1, s.2 :: r.2)
  | w, WriterOp.doWrite n k err :: rest =>
      let s := w.write n k err
      let r := runOps s.1 rest
      (r.1, s.2.1 :: r.2)

/-- One update of a registry instrument, as performed by the middleware:
which instrument, with which label values (and for histograms, the
observed value). -/
inductive MetricEvent
  | reqCounterInc (method path status : String)
  | durationObserve (method path status : String) (seconds : Nat)
  | reqSizeObserve (method path : String) (size : Int)
  | respSizeObserve (method path : String) (size : Int)
  | inFlightInc (method : String)
  | inFlightDec (method : String)
  | errorsInc (method path errType : String)
  | byStatusInc (statusClass statusCode : String)
deriving Repr, DecidableEq

/-- `strconv.Itoa(statusCode/100) + "xx"` — Go's `/` on `int` truncates
toward zero, which is `Int.tdiv`. -/
def statusClassOf (c : Int) : String :=
  toString (Int.tdiv c 100) ++ "xx"

/-- The `errorType` chosen by `Middleware` when `statusCode >= 400`:
`"client_error"`, overwritten with `"server_error"` when
`statusCode >= 500`. -/
def errorTypeOf (c : Int) : String :=
  if 500 ≤ c then "server_error" else "client_error"

/-- Registry updates `Middleware` performs before calling the downstream
handler: the in-flight gauge increment, then the request-size observation
when `r.ContentLength > 0`. -/
def preHandlerEvents (r : Request) : List MetricEvent :=
  MetricEvent.inFlightInc r.method ::
    (if 0 < r.contentLength then
      [MetricEvent.reqSizeObserve r.method r.path r.contentLength]
    else [])

/-- Registry updates `Middleware` performs after the downstream handler
returns normally, reading the captured writer state `w`: request counter,
duration histogram, status-by-class counter, then response-size histogram
when bytes were written, then the error counter when the status is an
error.  `durationSec` stands for the elapsed `time.Since(start).Seconds()`
value (its numeric value is irrelevant to every claim). -/
def postHandlerEvents (r : Request) (w : MetricsResponseWriter)
    (durationSec : Nat) : List MetricEvent :=
  [MetricEvent.reqCounterInc r.method r.path (toString w.statusCode),
   MetricEvent.durationObserve r.method r.path (toString w.statusCode) durationSec,
   MetricEvent.byStatusInc (statusClassOf w.statusCode) (toString w.statusCode)]
  ++ (if 0 < w.responseSize then
        [MetricEvent.respSizeObserve r.method r.path w.responseSize]
      else [])
  ++ (if 400 ≤ w.statusCode then
        [MetricEvent.errorsInc r.method r.path (errorTypeOf w.statusCode)]
      else [])

/-- What the middleware can observe of one downstream invocation: it either
returns normally after the given writer calls, or panics after them. -/
inductive Outcome
  | normal (ops : List WriterOp)
  | faulted (ops : List WriterOp)
deriving Repr, DecidableEq

def Outcome.isNormal : Outcome → Bool
  | Outcome.normal _ => true
  | Outcome.faulted _ => false

/-- Registry-event trace of one `Middleware` invocation.  On a normal
return the deferred gauge decrement runs last; on a panic the deferred
decrement still runs during unwinding, but none of the post-handler
bookkeeping (lines 133–155 of `middleware.go`) is reached. -/
def middlewareEvents (r : Request) (o : Outcome) (durationSec : Nat) :
    List MetricEvent :=
  match o with
  | Outcome.normal ops =>
      preHandlerEvents r
        ++ postHandlerEvents r (runOps newMetricsResponseWriter ops).1 durationSec
        ++ [MetricEvent.inFlightDec r.method]
  | Outcome.faulted _ =>
      preHandlerEvents r ++ [MetricEvent.inFlightDec r.method]

/-- `http.Error(w, http.StatusText(500), 500)` writes the 22-byte body
`"Internal Server Error\n"` after setting status 500, directly on the
writer `RecoverMiddleware` received. -/
def recoverSinkEvents : List SinkEvent :=
  [SinkEvent.header 500, SinkEvent.writeBytes 22 22]

/-- One request through `RecoverMiddleware(Middleware(next))` (the
composition shown in the repository's usage example): the registry-event
trace and the trace of calls reaching the real response sink.  On a panic
the writer calls the handler made before faulting were already forwarded
through the interceptor; the deferred `recover` in `RecoverMiddleware`
then increments the error counter with `error_type="panic"` and writes the
generic 500 response directly to the original sink, and the panic is not
re-propagated (this function returns normally on every input). -/
def processRequest (r : Request) (o : Outcome) (durationSec : Nat) :
    List MetricEvent × List SinkEvent :=
  match o with
  | Outcome.normal ops =>
      (middlewareEvents r o durationSec, (runOps newMetricsResponseWriter ops).2)
  | Outcome.faulted ops =>
      (middlewareEvents r o durationSec
         ++ [MetricEvent.errorsInc r.method r.path "panic"],
       (runOps newMetricsResponseWriter ops).2 ++ recoverSinkEvents)

/-- One request together with its downstream behaviour and elapsed time. -/
structure RequestRun where
  req : Request
  outcome : Outcome
  durationSec : Nat
deriving Repr, DecidableEq

/-- Registry-event trace of a sequence of requests processed through the
full chain.  Concurrent interleavings permute these per-request event
blocks; every claim below is about per-label totals, which are invariant
under such permutations, so the sequential concatenation is faithful. -/
def runAll (rs : List RequestRun) : List MetricEvent :=
  (rs.map fun rr => (processRequest rr.req rr.outcome rr.durationSec).1).flatten

/-! ### Event counting helpers -/

def isReqCounterInc : MetricEvent → Bool
  | MetricEvent.reqCounterInc _ _ _ => true
  | _ => false

def isDurationObserve : MetricEvent → Bool
  | MetricEvent.durationObserve _ _ _ _ => true
  | _ => false

def isReqSizeObserve : MetricEvent → Bool
  | MetricEvent.reqSizeObserve _ _ _ => true
  | _ => false

def isRespSizeObserve : MetricEvent → Bool
  | MetricEvent.respSizeObserve _ _ _ => true
  | _ => false

def isErrorsInc : MetricEvent → Bool
  | MetricEvent.errorsInc _ _ _ => true
  | _ => false

def isByStatusInc : MetricEvent → Bool
  | MetricEvent.byStatusInc _ _ => true
  | _ => false

/-- Total of the request counter summed over all (method, path, status)
label tuples: each `Inc` event adds 1 to exactly one tuple's series, so
the total is the number of `reqCounterInc` events in the trace. -/
def requestCounterTotal (es : List MetricEvent) : Nat :=
  (es.filter isReqCounterInc).length

/-- All error-counter increments in a trace, in order. -/
def errorEvents (es : List MetricEvent) : List MetricEvent :=
  es.filter isErrorsInc

/-- Contribution of one event to the in-flight gauge of method `m`. -/
def gaugeStep (m : String) : MetricEvent → Int
  | MetricEvent.inFlightInc m2 => if m2 = m then 1 else 0
  | MetricEvent.inFlightDec m2 => if m2 = m then -1 else 0
  | _ => 0

/-- Net change of the in-flight gauge of method `m` over a trace. -/
def gaugeDelta (m : String) (es : List MetricEvent) : Int :=
  (es.map (gaugeStep m)).sum

/-- Sum of the byte counts the underlying sink reported as written across
a sequence of writer calls (header calls contribute nothing). -/
def acceptedBytes : List WriterOp → Int
  | [] => 0
  | WriterOp.doWrite _ k _ :: rest => (k : Int) + acceptedBytes rest
  | WriterOp.setHeader _ :: rest => acceptedBytes rest

/-- The sink call a writer call is forwarded as. -/
def forwardedCall : WriterOp → SinkEvent
  | WriterOp.setHeader c => SinkEvent.header c
  | WriterOp.doWrite n k _ => SinkEvent.writeBytes n k

/-- The status code named by the last status-setting call of a sequence of
writer calls, or `d` when there is none.  (Independent reformulation used
to characterize what `metricsResponseWriter` actually captures.) -/
def lastStatusSet (d : Int) : List WriterOp → Int
  | [] => d
  | WriterOp.setHeader c :: rest => lastStatusSet c rest
  | WriterOp.doWrite _ _ _ :: rest => lastStatusSet d rest

/-- The status code `Middleware` reads back after the downstream handler
returned, having made the calls `ops` on a fresh interceptor. -/
def statusOf (ops : List WriterOp) : Int :=
  (runOps newMetricsResponseWriter ops).1.statusCode

/-- Number of events in a trace satisfying `p`. -/
def countEv (p : MetricEvent → Bool) (es : List MetricEvent) : Nat :=
  (es.filter p).length

/-- Recognizes an in-flight gauge increment for method `m`. -/
def isInFlightIncOf (m : String) : MetricEvent → Bool
  | MetricEvent.inFlightInc m2 => m2 = m
  | _ => false

/-- Recognizes an in-flight gauge decrement for method `m`. -/
def isInFlightDecOf (m : String) : MetricEvent → Bool
  | MetricEvent.inFlightDec m2 => m2 = m
  | _ => false

/-- A single request whose downstream handler panics immediately: it
reaches a terminal state via the Recovery Wrapper. -/
def faultedRun : RequestRun :=
  { req := { method := "GET", path := "/boom", contentLength := 0 },
    outcome := Outcome.faulted [], durationSec := 0 }

/-! ### `main.go`: `InitMetrics` / `GetMetrics` global state

`Metrics` values are identified by a construction sequence number, so that
"the same instance" is expressible.  `Config.registryPresent` models
`cfg.Registry != nil`; the configuration's other fields are kept so that
"with any configuration" quantifies over what the Go function receives. -/

structure MetricsHandle where
  id : Nat
deriving Repr, DecidableEq

structure Config where
  nspace : String
  metricsPath : String
  registryPresent : Bool
deriving Repr, DecidableEq

/-- `DefaultConfig()`: namespace "app", path "/metrics", a fresh non-nil
registry. -/
def DefaultConfig : Config :=
  { nspace := "app", metricsPath := "/metrics", registryPresent := true }

/-- The package-level `metrics` pointer and `metricsOnce sync.Once`,
together with instrumentation of how many times the body of
`metricsOnce.Do` ran its two effects (`NewMetrics` construction and
`MustRegister` registration). -/
structure InitState where
  metrics : Option MetricsHandle
  onceDone : Bool
  constructions : Nat
  registrations : Nat
deriving Repr, DecidableEq

def startState : InitState :=
  { metrics := none, onceDone := false, constructions := 0, registrations := 0 }

/-- `InitMetrics(cfg)`: substitute the default config for nil, run the
`sync.Once` body (construct `NewMetrics`, register with the registry when
one is present) if it has not run, return the package-level pointer. -/
def initMetrics (s : InitState) (cfg0 : Option Config) :
    InitState × Option MetricsHandle :=
  let cfg := cfg0.getD DefaultConfig
  if s.onceDone then (s, s.metrics)
  else
    let s2 : InitState :=
      { metrics := some { id := s.constructions },
        onceDone := true,
        constructions := s.constructions + 1,
        registrations := s.registrations + (if cfg.registryPresent then 1 else 0) }
    (s2, s2.metrics)

/-- `GetMetrics()`: return the pointer if set, else `InitMetrics(nil)`. -/
def getMetrics (s : InitState) : InitState × Option MetricsHandle :=
  match s.metrics with
  | none => initMetrics s none
  | some h => (s, some h)

/-- One call into the initialization API. -/
inductive InitCall
  | init (cfg : Option Config)
  | get
deriving Repr, DecidableEq

def stepCall (s : InitState) : InitCall → InitState × Option MetricsHandle
  | InitCall.init cfg => initMetrics s cfg
  | InitCall.get => getMetrics s

/-- Run a sequence of `InitMetrics`/`GetMetrics` calls, collecting the
returned pointers. -/
def runCalls : InitState → List InitCall → InitState × List (Option MetricsHandle)
  | s, [] => (s, [])
  | s, c :: rest =>
      let r := stepCall s c
      let r2 := runCalls r.1 rest
      (r2.1, r.2 :: r2.2)

/-- Invariant of the initialization state machine: either nothing has run
yet, or the `sync.Once` body has run exactly once, the package-level
pointer holds the first (and only) constructed `Metrics` value, and
registration ran at most once. -/
def InitInv (s : InitState) : Prop :=
  s = startState ∨
    (s.metrics = some { id := 0 } ∧ s.onceDone = true ∧
     s.constructions = 1 ∧ s.registrations ≤ 1)

/-! ## Structural lemmas about the Response Interceptor -/

theorem runOps_statusCode (w : MetricsResponseWriter) (ops : List WriterOp) :
    (runOps w ops).1.statusCode = lastStatusSet w.statusCode ops := by
  induction ops generalizing w with
  | nil => rfl
  | cons op rest ih =>
      cases op <;>
        simp [runOps, lastStatusSet, MetricsResponseWriter.writeHeader,
          MetricsResponseWriter.write, ih]

theorem runOps_sink (w : MetricsResponseWriter) (ops : List WriterOp) :
    (runOps w ops).2 = ops.map forwardedCall := by
  induction ops generalizing w with
  | nil => rfl
  | cons op rest ih =>
      cases op <;>
        simp [runOps, forwardedCall, MetricsResponseWriter.writeHeader,
          MetricsResponseWriter.write, ih]

theorem runOps_responseSize (w : MetricsResponseWriter) (ops : List WriterOp) :
    (runOps w ops).1.responseSize = w.responseSize + acceptedBytes ops := by
  induction ops generalizing w with
  | nil => simp [runOps, acceptedBytes]
  | cons op rest ih =>
      cases op <;>
        simp [runOps, acceptedBytes, MetricsResponseWriter.writeHeader,
          MetricsResponseWriter.write, ih] <;> ring

/-! ## Per-request trace lemmas -/

theorem requestCounterTotal_processRequest (r : Request) (o : Outcome) (d : Nat) :
    requestCounterTotal (processRequest r o d).1 = if o.isNormal then 1 else 0 := by
  cases o with
  | normal ops =>
      simp only [processRequest, middlewareEvents, Outcome.isNormal, if_true]
      unfold requestCounterTotal preHandlerEvents postHandlerEvents
      split_ifs <;> simp_all [isReqCounterInc, List.filter_append]
  | faulted ops =>
      simp only [processRequest, middlewareEvents, Outcome.isNormal, if_false]
      unfold requestCounterTotal preHandlerEvents
      split_ifs <;> simp_all [isReqCounterInc, List.filter_append]

theorem postHandler_gauge_zero (r : Request) (w : MetricsResponseWriter)
    (d : Nat) (m : String) :
    (List.map (gaugeStep m) (postHandlerEvents r w d)).sum = 0 := by
  unfold postHandlerEvents
  split_ifs <;> simp [gaugeStep]

theorem postHandler_no_incOf (r : Request) (w : MetricsResponseWriter)
    (d : Nat) (m : String) :
    (postHandlerEvents r w d).filter (isInFlightIncOf m) = [] := by
  unfold postHandlerEvents
  split_ifs <;> simp [isInFlightIncOf]

theorem postHandler_no_decOf (r : Request) (w : MetricsResponseWriter)
    (d : Nat) (m : String) :
    (postHandlerEvents r w d).filter (isInFlightDecOf m) = [] := by
  unfold postHandlerEvents
  split_ifs <;> simp [isInFlightDecOf]

theorem postHandler_errors (r : Request) (w : MetricsResponseWriter) (d : Nat) :
    (postHandlerEvents r w d).filter isErrorsInc =
      if 400 ≤ w.statusCode then
        [MetricEvent.errorsInc r.method r.path (errorTypeOf w.statusCode)]
      else [] := by
  unfold postHandlerEvents
  split_ifs <;> simp [isErrorsInc]

/-! ## Decimal-representation lemma for the status class -/

set_option maxHeartbeats 4000000 in
set_option maxRecDepth 10000 in
theorem repr_div100_take (n : Nat) (h1 : 100 ≤ n) (h2 : n ≤ 999) :
    Nat.repr (n / 100) = (Nat.repr n).take 1 := by
  have h : ∀ m : Nat, m < 1000 → 100 ≤ m →
      Nat.repr (m / 100) = (Nat.repr m).take 1 := by decide
  exact h n (by omega) h1

theorem statusClassOf_take (c : Int) (h1 : 100 ≤ c) (h2 : c ≤ 999) :
    statusClassOf c = (toString c).take 1 ++ "xx" := by
  lift c to Nat using (by omega) with n
  have e1 : toString ((n : Int)) = Nat.repr n := rfl
  have e2 : Int.tdiv (n : Int) 100 = ((n / 100 : Nat) : Int) := rfl
  have e3 : toString (((n / 100 : Nat) : Int)) = Nat.repr (n / 100) := rfl
  rw [statusClassOf, e1, e2, e3, repr_div100_take n (by omega) (by omega)]

/-! ## Initialization state-machine lemmas -/

theorem stepCall_inv (s : InitState) (h : InitInv s) (c : InitCall) :
    InitInv (stepCall s c).1 ∧ (stepCall s c).2 = some { id := 0 } := by
  cases h with
  | inl h0 =>
      subst h0
      cases c with
      | init cfg =>
          cases cfg with
          | none =>
              constructor
              · right
                constructor <;> simp [stepCall, initMetrics, startState, DefaultConfig]
              · simp [stepCall, initMetrics, startState, DefaultConfig]
          | some cfg0 =>
              constructor
              · right
                refine ⟨?_, ?_, ?_, ?_⟩ <;>
                  simp [stepCall, initMetrics, startState] <;>
                  split_ifs <;> simp
              · simp [stepCall, initMetrics, startState]
      | get =>
          constructor
          · right
            constructor <;> simp [stepCall, getMetrics, initMetrics, startState, DefaultConfig]
          · simp [stepCall, getMetrics, initMetrics, startState, DefaultConfig]
  | inr hg =>
      obtain ⟨hm, ho, hc, hr⟩ := hg
      cases c with
      | init cfg =>
          constructor
          · right
            refine ⟨?_, ?_, ?_, ?_⟩ <;> simp [stepCall, initMetrics, ho, hm, hc, hr]
          · simp [stepCall, initMetrics, ho, hm]
      | get =>
          constructor
          · right
            refine ⟨?_, ?_, ?_, ?_⟩ <;> simp [stepCall, getMetrics, hm, ho, hc, hr]
          · simp [stepCall, getMetrics, hm]

theorem runCalls_inv (s : InitState) (h : InitInv s) (calls : List InitCall) :
    InitInv (runCalls s calls).1 ∧
    (runCalls s calls).2 = List.replicate calls.length (some { id := 0 }) := by
  induction calls generalizing s with
  | nil => exact ⟨h, rfl⟩
  | cons c rest ih =>
      have hs := stepCall_inv s h c
      have hr := ih (stepCall s c).1 hs.1
      refine ⟨?_, ?_⟩
      · simp [runCalls, hr.1]
      · simp [runCalls, hs.2, hr.2, List.replicate]

/-! ## Claim theorems -/

/-- C1, counterexample.  The claim says the request counter's total over
all (method, path, status) tuples equals the number of requests that
reached a terminal state, counting recovered panics as well.  A single
request whose handler panics reaches a terminal state through the
Recovery Wrapper (so the claimed total is the number of processed
requests, here 1), yet the panic unwinds past the post-handler
bookkeeping of `Middleware`, so `RequestCounter` is never incremented:
the total is 0. -/
theorem requestCounter_misses_recovered_request :
    requestCounterTotal (runAll [faultedRun]) ≠ [faultedRun].length := by decide

/-- C1, amended.  For every sequence of requests processed through
`RecoverMiddleware(Middleware(next))`, the request counter's total summed
over all (method, path, status) tuples equals the number of requests
whose downstream handler returned normally; a request whose fault was
caught by the Recovery Wrapper is not counted (it produces only an
error-counter observation).  No request is counted twice. -/
theorem requestCounterTotal_eq_normal_completions (rs : List RequestRun) :
    requestCounterTotal (runAll rs)
      = (rs.filter fun rr => rr.outcome.isNormal).length := by
  induction rs with
  | nil => rfl
  | cons rr rest ih =>
      have hsplit : runAll (rr :: rest)
          = (processRequest rr.req rr.outcome rr.durationSec).1 ++ runAll rest := by
        simp [runAll]
      rw [hsplit]
      unfold requestCounterTotal at *
      rw [List.filter_append, List.length_append]
      have h1 := requestCounterTotal_processRequest rr.req rr.outcome rr.durationSec
      unfold requestCounterTotal at h1
      rw [h1, ih]
      cases h : rr.outcome.isNormal <;> simp [List.filter_cons, h] <;> omega

/-- C2, counterexample.  The claim says the captured status code equals
the code of the *first* status-setting call.  With the call sequence
`WriteHeader(200); WriteHeader(404)` the interceptor captures 404, not
the first call's 200 (`w.statusCode = statusCode` overwrites on every
call), even though both calls are forwarded to the sink. -/
theorem statusCode_not_first_writeHeader :
    (runOps newMetricsResponseWriter
        [WriterOp.setHeader 200, WriterOp.setHeader 404]).1.statusCode ≠ 200 ∧
    (runOps newMetricsResponseWriter
        [WriterOp.setHeader 200, WriterOp.setHeader 404]).2
      = [SinkEvent.header 200, SinkEvent.header 404] :=
  ⟨by decide, by decide⟩

/-- C2, amended.  For every sequence of calls on one interceptor, the
captured status code equals the code passed to the *last* status-setting
call (200, the initial default, if there is none), and every call —
status-setting or write — is forwarded to the underlying sink
unconditionally, in order. -/
theorem statusCode_last_writeHeader_and_forward
    (w : MetricsResponseWriter) (ops : List WriterOp) :
    (runOps w ops).1.statusCode = lastStatusSet w.statusCode ops ∧
    (runOps w ops).2 = ops.map forwardedCall :=
  ⟨runOps_statusCode w ops, runOps_sink w ops⟩

/-- C3.  For every request (normal return or downstream fault), the
in-flight gauge of the request's method is incremented exactly once, as
the very first instrument update of the invocation, and decremented
exactly once when the invocation completes (the deferred decrement also
runs while a panic unwinds); consequently the gauge of every method
returns to its pre-request value. -/
theorem inFlight_inc_dec_paired (r : Request) (o : Outcome) (d : Nat) (m : String) :
    gaugeDelta m (processRequest r o d).1 = 0 ∧
    countEv (isInFlightIncOf r.method) (processRequest r o d).1 = 1 ∧
    countEv (isInFlightDecOf r.method) (processRequest r o d).1 = 1 ∧
    (processRequest r o d).1.head? = some (MetricEvent.inFlightInc r.method) := by
  cases o with
  | normal ops =>
      simp only [processRequest, middlewareEvents, gaugeDelta, countEv,
        List.map_append, List.sum_append, List.filter_append, List.length_append,
        postHandler_gauge_zero, postHandler_no_incOf, postHandler_no_decOf]
      unfold preHandlerEvents
      split_ifs <;>
        simp_all [gaugeStep, isInFlightIncOf, isInFlightDecOf] <;>
        split_ifs <;> simp
  | faulted ops =>
      simp only [processRequest, middlewareEvents, gaugeDelta, countEv,
        List.map_append, List.sum_append, List.filter_append, List.length_append]
      unfold preHandlerEvents
      split_ifs <;>
        simp_all [gaugeStep, isInFlightIncOf, isInFlightDecOf] <;>
        split_ifs <;> simp

/-- C4.  On a normal return, the error-counter updates of the whole
invocation are: exactly one increment labelled
(method, path, "server_error") when the captured status is ≥ 500, exactly
one labelled (method, path, "client_error") when it is in [400, 500), and
none when it is below 400.  In particular the increment happens iff the
status is ≥ 400, status codes in [400,500) yield "client_error", those in
[500,600) yield "server_error", and the normal-return path never produces
error_type "panic". -/
theorem errorCounter_normal_path (r : Request) (ops : List WriterOp) (d : Nat) :
    errorEvents (processRequest r (Outcome.normal ops) d).1 =
      if 500 ≤ statusOf ops then [MetricEvent.errorsInc r.method r.path "server_error"]
      else if 400 ≤ statusOf ops then [MetricEvent.errorsInc r.method r.path "client_error"]
      else [] := by
  have h := postHandler_errors r (runOps newMetricsResponseWriter ops).1 d
  simp only [errorEvents, processRequest, middlewareEvents, List.filter_append, h, statusOf]
  unfold preHandlerEvents errorTypeOf
  split_ifs <;> simp_all [isErrorsInc] <;> omega

/-- C5.  For every request whose downstream processing panics, the
Recovery Wrapper's deferred handler catches it: the error counter is
incremented exactly once over the whole invocation, with labels
(method, path, "panic"), and one generic 500 response (`WriteHeader(500)`
plus the 22-byte `http.StatusText` body) is written to the original sink
after whatever the handler had already forwarded.  Non-propagation is
structural: `processRequest` returns normally on every faulted input. -/
theorem recover_catches_fault_once (r : Request) (ops : List WriterOp) (d : Nat) :
    errorEvents (processRequest r (Outcome.faulted ops) d).1
      = [MetricEvent.errorsInc r.method r.path "panic"] ∧
    (processRequest r (Outcome.faulted ops) d).2
      = (runOps newMetricsResponseWriter ops).2
          ++ [SinkEvent.header 500, SinkEvent.writeBytes 22 22] := by
  unfold errorEvents processRequest middlewareEvents preHandlerEvents recoverSinkEvents
  split_ifs <;> simp [isErrorsInc, List.filter_append]

/-- C6.  Each `Write` forwards the byte slice to the underlying sink,
adds to the cumulative counter exactly the byte count the sink reports as
written (not the count requested), and returns the sink's (count, error)
result unmodified; hence over any call sequence the captured byte count
equals the sum of the bytes the sink accepted, even under partial
writes. -/
theorem write_accounts_sink_accepted (w0 : MetricsResponseWriter) (ops : List WriterOp) :
    (runOps w0 ops).1.responseSize = w0.responseSize + acceptedBytes ops ∧
    (runOps w0 ops).2 = ops.map forwardedCall ∧
    ∀ (w : MetricsResponseWriter) (n k : Nat) (e : Option String),
      (w.write n k e).2.2 = (k, e) ∧
      (w.write n k e).1.responseSize = w.responseSize + (k : Int) ∧
      (w.write n k e).2.1 = SinkEvent.writeBytes n k := by
  refine ⟨runOps_responseSize w0 ops, runOps_sink w0 ops, ?_⟩
  intro w n k e
  exact ⟨rfl, rfl, rfl⟩

/-- C7.  A request-size observation (labels: method, path, value: the
declared `ContentLength`) occurs exactly once iff the declared length is
strictly positive, and never otherwise (0 or the absent marker −1); it is
part of the pre-handler block, i.e. the trace begins with the pre-handler
events, emitted before the downstream handler is invoked. -/
theorem requestSize_observed_iff_positive (r : Request) (o : Outcome) (d : Nat) :
    ((processRequest r o d).1.filter isReqSizeObserve
      = if 0 < r.contentLength then
          [MetricEvent.reqSizeObserve r.method r.path r.contentLength]
        else []) ∧
    ((processRequest r o d).1.take (preHandlerEvents r).length = preHandlerEvents r) := by
  cases o with
  | normal ops =>
      constructor
      · unfold processRequest middlewareEvents preHandlerEvents postHandlerEvents
        split_ifs <;> simp_all [isReqSizeObserve, List.filter_append]
      · simp only [processRequest, middlewareEvents]
        rw [List.append_assoc, List.take_left]
  | faulted ops =>
      constructor
      · unfold processRequest middlewareEvents preHandlerEvents
        split_ifs <;> simp_all [isReqSizeObserve, List.filter_append]
      · simp only [processRequest, middlewareEvents]
        rw [List.append_assoc, List.take_left]

/-- C8.  For every normal return whose captured status code is a 3-digit
number, the status-by-class counter is updated with status_class equal to
the first character of the status code's decimal representation followed
by "xx" (404 → "4xx", 200 → "2xx", 503 → "5xx"): the code's
`strconv.Itoa(statusCode/100) + "xx"` computes exactly that. -/
theorem statusClass_first_digit (r : Request) (ops : List WriterOp) (d : Nat)
    (h1 : 100 ≤ statusOf ops) (h2 : statusOf ops ≤ 999) :
    MetricEvent.byStatusInc ((toString (statusOf ops)).take 1 ++ "xx")
        (toString (statusOf ops)) ∈ (processRequest r (Outcome.normal ops) d).1 := by
  rw [← statusClassOf_take (statusOf ops) h1 h2]
  simp only [processRequest, middlewareEvents, statusOf, postHandlerEvents]
  simp [List.mem_append]

/-- C8, witness: a downstream handler that sets status 404 yields a
status-by-class increment labelled ("4xx", "404"). -/
theorem statusClass_first_digit_witness :
    MetricEvent.byStatusInc "4xx" "404"
      ∈ (processRequest { method := "GET", path := "/users", contentLength := 0 }
          (Outcome.normal [WriterOp.setHeader 404]) 1).1 := by
  have h := statusClass_first_digit
    { method := "GET", path := "/users", contentLength := 0 }
    [WriterOp.setHeader 404] 1 (by decide) (by decide)
  have e1 : toString (statusOf [WriterOp.setHeader 404]) = "404" := rfl
  rw [e1] at h
  have e2 : ("404" : String).take 1 ++ "xx" = "4xx" := by decide
  rw [e2] at h
  exact h

/-- C9.  Initialization is idempotent: over any sequence of `InitMetrics`
calls (with arbitrary configurations, nil included) and `GetMetrics`
calls starting from the fresh process state, the `sync.Once` body runs
its instrument construction at most once and its registry registration at
most once, and every call returns the same non-nil `Metrics` value — the
one built by the first initialization. -/
theorem initMetrics_idempotent (calls : List InitCall) :
    (runCalls startState calls).1.constructions ≤ 1 ∧
    (runCalls startState calls).1.registrations ≤ 1 ∧
    (runCalls startState calls).2 = List.replicate calls.length (some { id := 0 }) := by
  have h := runCalls_inv startState (Or.inl rfl) calls
  refine ⟨?_, ?_, h.2⟩ <;>
    cases h.1 with
    | inl h0 => rw [h0] <;> simp [startState]
    | inr hg => omega

/-- C10.  On a panicked request, the request counter, duration histogram,
status-by-class counter and response-size histogram receive no update at
all; the only error-counter update is the wrapper's single
(method, path, "panic") increment; the generic 500 response is written to
the sink the wrapper was given — not through the interceptor — so the
interceptor's captured byte count still equals exactly the bytes the sink
accepted from the handler before the fault. -/
theorem recover_fault_frame (r : Request) (ops : List WriterOp) (d : Nat) :
    ((processRequest r (Outcome.faulted ops) d).1.filter isReqCounterInc = [] ∧
     (processRequest r (Outcome.faulted ops) d).1.filter isDurationObserve = [] ∧
     (processRequest r (Outcome.faulted ops) d).1.filter isByStatusInc = [] ∧
     (processRequest r (Outcome.faulted ops) d).1.filter isRespSizeObserve = []) ∧
    errorEvents (processRequest r (Outcome.faulted ops) d).1
      = [MetricEvent.errorsInc r.method r.path "panic"] ∧
    (processRequest r (Outcome.faulted ops) d).2
      = (runOps newMetricsResponseWriter ops).2 ++ recoverSinkEvents ∧
    (runOps newMetricsResponseWriter ops).1.responseSize = acceptedBytes ops := by
  refine ⟨?_, ?_, rfl, ?_⟩
  · unfold processRequest middlewareEvents preHandlerEvents
    split_ifs <;>
      simp_all [isReqCounterInc, isDurationObserve, isByStatusInc, isRespSizeObserve,
        List.filter_append]
  · unfold errorEvents processRequest middlewareEvents preHandlerEvents
    split_ifs <;> simp [isErrorsInc, List.filter_append]
  · rw [runOps_responseSize]
    simp [newMetricsResponseWriter]

end PromMonitoring
